import Mathlib

/-!
Verification development for the RegFox API client (`regfox.py`).

The client is shallowly embedded: the HTTP transport (`requests.request`)
and the JSON decoder (`json.loads`) are external to the repository, so they
are passed in as explicit parameters (`Transport`, `JsonLoads`); the
client's own state (the `apiKey` header entry, `last_request`,
`last_request_json`) is passed explicitly.  Python exceptions that the
client code can raise are an inductive `PyExc`, and each operation returns,
besides its `Except` result and the updated state, the list of HTTP
requests it handed to the transport (so that "issues exactly one GET to
..." and "raises before any request is sent" are statable).

A second model (`namespace ObjModel`) embeds Python's attribute semantics
(class attributes, instance attributes, in-place dict mutation) for the
claims about state shared between two client instances.
-/

namespace RegFox

/-- Parsed JSON values, the result type of `json.loads`. -/
inductive JsonV where
  | null
  | bool (b : Bool)
  | num (n : Int)
  | str (s : String)
  | arr (elems : List JsonV)
  | obj (fields : List (String × JsonV))
deriving Repr

/-- Python exception classes the embedded client code can raise:
`FileNotFoundError` (from `open`), `json.JSONDecodeError` (from
`json.load` / `json.loads`), `KeyError` / `TypeError` (from `config['api_key']`),
`AssertionError` (from `assert`), `requests.exceptions.RequestException`
(transport failure inside `requests.request`). -/
inductive PyExc where
  | fileNotFoundError
  | jsonDecodeError
  | keyError
  | typeError
  | assertionError
  | requestException
deriving DecidableEq, Repr

/-- The slice of `requests.models.Response` the client uses: `.text`. -/
structure Response where
  text : String
deriving Repr

/-- One HTTP request as handed to `requests.request`. -/
structure HttpRequest where
  method : String
  url : String
  headers : List (String × JsonV)
  jsonBody : Option JsonV
  params : List (String × JsonV)
deriving Repr

/-- What the transport does with a request: raise (a subclass of)
`requests.exceptions.RequestException`, or deliver a response body. -/
inductive TransportOutcome where
  | failure
  | success (text : String)
deriving Repr

/-- The external network, abstracted: `requests.request`. -/
def Transport := HttpRequest → TransportOutcome

/-- The external `json.loads`: `none` models a raised `json.JSONDecodeError`. -/
def JsonLoads := String → Option JsonV

/-- Per-instance view of the client state: the `apiKey` entry of the
`headers` dict, and the two debug fields. -/
structure RFState where
  apiKey : JsonV
  last_request : Option Response
  last_request_json : JsonV
deriving Repr

/-- `RegFoxAPI.url_base`. -/
def url_base : String := "https://api.webconnex.com/v2/public"

/-- `RegFoxAPI.endpoints`. -/
def endpoints : List (String × String) :=
  [("ping", "/ping"),
   ("search_orders", "/search/orders"),
   ("search_registrants", "/search/registrants"),
   ("registrant_checkin", "/registrant/check-in"),
   ("registrant_checkout", "/registrant/check-out"),
   ("search_transactions", "/search/transactions"),
   ("search_customers", "/search/customers"),
   ("list_global_coupons", "/coupons/global"),
   ("list_form_coupons", "/coupons/forms"),
   ("coupons", "/coupons"),
   ("forms", "/forms")]

/-- `self.endpoints[k]` (every access in the source uses a key present in
the dict, so the `KeyError` branch never fires and is elided). -/
def ep (k : String) : String := (endpoints.lookup k).getD ""

/-- The `headers` dict as sent with a request: `{'apiKey': <stored key>}`. -/
def mkHeaders (s : RFState) : List (String × JsonV) := [("apiKey", s.apiKey)]

/-- `RegFoxAPI.__api_request`: build the request, hand it to the transport,
record `last_request`, parse the body into `last_request_json`, return the
raw response.  Besides the `Except` result and the updated state, the list
of requests actually handed to the transport is returned. -/
def apiRequest (t : Transport) (jl : JsonLoads) (method url : String)
    (payload : Option JsonV) (params : List (String × JsonV)) (s : RFState) :
    Except PyExc Response × RFState × List HttpRequest :=
  let req : HttpRequest :=
    { method := method, url := url, headers := mkHeaders s,
      jsonBody := payload, params := params }
  match t req with
  | .failure => (.error .requestException, s, [req])
  | .success text =>
    let r : Response := ⟨text⟩
    let s1 : RFState := { s with last_request := some r }
    match jl text with
    | none => (.error .jsonDecodeError, s1, [req])
    | some j => (.ok r, { s1 with last_request_json := j }, [req])

/-- `RegFoxAPI.api_get`: issue a GET to `url_base + endpoint`, then return
`self.last_request_json`. -/
def api_get (t : Transport) (jl : JsonLoads) (endpoint : String)
    (params : List (String × JsonV)) (s : RFState) :
    Except PyExc JsonV × RFState × List HttpRequest :=
  match apiRequest t jl "GET" (url_base ++ endpoint) none params s with
  | (.error e, s1, reqs) => (.error e, s1, reqs)
  | (.ok _, s1, reqs) => (.ok s1.last_request_json, s1, reqs)

/-- `RegFoxAPI.api_post`: issue a POST to `url_base + endpoint` with a JSON
payload, then return `self.last_request_json`. -/
def api_post (t : Transport) (jl : JsonLoads) (endpoint : String)
    (payload : JsonV) (params : List (String × JsonV)) (s : RFState) :
    Except PyExc JsonV × RFState × List HttpRequest :=
  match apiRequest t jl "POST" (url_base ++ endpoint) (some payload) params s with
  | (.error e, s1, reqs) => (.error e, s1, reqs)
  | (.ok _, s1, reqs) => (.ok s1.last_request_json, s1, reqs)

/-- A Python value as passed for `reg_number` / `reg_id`; `type(v) is int`
holds exactly for `int` (in particular not for `None` and not for `bool`). -/
inductive PyVal where
  | none
  | int (n : Int)
  | str (s : String)
  | bool (b : Bool)
deriving DecidableEq, Repr

/-- Python's `type(v) is int`. -/
def PyVal.isTypeInt : PyVal → Bool
  | .int _ => true
  | _ => false

/-- `RegFoxAPI.ping`. -/
def ping (t : Transport) (jl : JsonLoads) (s : RFState) :
    Except PyExc JsonV × RFState × List HttpRequest :=
  api_get t jl (ep "ping") [] s

/-- `RegFoxAPI.search_orders` (free-form kwargs become an association list). -/
def search_orders (t : Transport) (jl : JsonLoads)
    (kwargs : List (String × JsonV)) (s : RFState) :
    Except PyExc JsonV × RFState × List HttpRequest :=
  api_get t jl (ep "search_orders") kwargs s

/-- `RegFoxAPI.search_orders_id`. -/
def search_orders_id (t : Transport) (jl : JsonLoads) (order_id : String)
    (s : RFState) : Except PyExc JsonV × RFState × List HttpRequest :=
  api_get t jl (ep "search_orders" ++ "/" ++ order_id) [] s

/-- `RegFoxAPI.search_orders_number`. -/
def search_orders_number (t : Transport) (jl : JsonLoads)
    (order_number : String) (s : RFState) :
    Except PyExc JsonV × RFState × List HttpRequest :=
  search_orders t jl [("orderNumber", .str order_number)] s

/-- `RegFoxAPI.search_registrants`. -/
def search_registrants (t : Transport) (jl : JsonLoads)
    (kwargs : List (String × JsonV)) (s : RFState) :
    Except PyExc JsonV × RFState × List HttpRequest :=
  api_get t jl (ep "search_registrants") kwargs s

/-- `RegFoxAPI.search_registrants_number`. -/
def search_registrants_number (t : Transport) (jl : JsonLoads)
    (reg_number : String) (s : RFState) :
    Except PyExc JsonV × RFState × List HttpRequest :=
  api_get t jl (ep "search_registrants" ++ "/" ++ reg_number) [] s

/-- `RegFoxAPI.registrant_checkin`: `assert type(reg_number) is int`, then
POST `{'id': reg_number}` to the check-in endpoint.  `reg_id` is accepted
but never read. -/
def registrant_checkin (t : Transport) (jl : JsonLoads)
    (reg_number reg_id : PyVal) (s : RFState) :
    Except PyExc JsonV × RFState × List HttpRequest :=
  match reg_number with
  | .int n => api_post t jl (ep "registrant_checkin") (.obj [("id", .num n)]) [] s
  | _ => (.error .assertionError, s, [])

/-- `RegFoxAPI.registrant_checkout`: `assert type(reg_number) is int`, print
a warning to stderr, then POST `{'id': reg_number}` to the check-out
endpoint.  The first component is the list of warning lines printed. -/
def registrant_checkout (t : Transport) (jl : JsonLoads)
    (reg_number reg_id : PyVal) (s : RFState) :
    List String × (Except PyExc JsonV × RFState × List HttpRequest) :=
  match reg_number with
  | .int n =>
    (["WARNING: checkout() is broken as of last test run"],
     api_post t jl (ep "registrant_checkout") (.obj [("id", .num n)]) [] s)
  | _ => ([], (.error .assertionError, s, []))

/-- `RegFoxAPI.search_transactions`. -/
def search_transactions (t : Transport) (jl : JsonLoads)
    (kwargs : List (String × JsonV)) (s : RFState) :
    Except PyExc JsonV × RFState × List HttpRequest :=
  api_get t jl (ep "search_transactions") kwargs s

/-- `RegFoxAPI.search_customers`. -/
def search_customers (t : Transport) (jl : JsonLoads)
    (kwargs : List (String × JsonV)) (s : RFState) :
    Except PyExc JsonV × RFState × List HttpRequest :=
  api_get t jl (ep "search_customers") kwargs s

/-- `RegFoxAPI.search_customers_id`. -/
def search_customers_id (t : Transport) (jl : JsonLoads) (customer_id : Int)
    (s : RFState) : Except PyExc JsonV × RFState × List HttpRequest :=
  api_get t jl (ep "search_customers" ++ "/" ++ toString customer_id) [] s

/-- `RegFoxAPI.list_forms`. -/
def list_forms (t : Transport) (jl : JsonLoads) (s : RFState) :
    Except PyExc JsonV × RFState × List HttpRequest :=
  api_get t jl (ep "forms") [] s

/-- `RegFoxAPI.search_forms_id`. -/
def search_forms_id (t : Transport) (jl : JsonLoads) (form_id : Int)
    (s : RFState) : Except PyExc JsonV × RFState × List HttpRequest :=
  api_get t jl (ep "forms" ++ "/" ++ toString form_id) [] s

/-- `RegFoxAPI.list_global_coupons`. -/
def list_global_coupons (t : Transport) (jl : JsonLoads)
    (kwargs : List (String × JsonV)) (s : RFState) :
    Except PyExc JsonV × RFState × List HttpRequest :=
  api_get t jl (ep "list_global_coupons") kwargs s

/-- `RegFoxAPI.list_form_coupons`. -/
def list_form_coupons (t : Transport) (jl : JsonLoads) (form_id : Int)
    (s : RFState) : Except PyExc JsonV × RFState × List HttpRequest :=
  api_get t jl (ep "list_form_coupons" ++ "/" ++ toString form_id) [] s

/-- `RegFoxAPI.search_coupons`. -/
def search_coupons (t : Transport) (jl : JsonLoads) (coupon_id : Int)
    (s : RFState) : Except PyExc JsonV × RFState × List HttpRequest :=
  api_get t jl (ep "coupons" ++ "/" ++ toString coupon_id) [] s

/-- `RegFoxAPI.search_inventory`. -/
def search_inventory (t : Transport) (jl : JsonLoads) (form_id : Int)
    (s : RFState) : Except PyExc JsonV × RFState × List HttpRequest :=
  api_get t jl (ep "forms" ++ "/" ++ toString form_id ++ "/inventory") [] s

/-- The configuration source `config.json` as `open` + `json.load` see it:
absent file, unparsable contents, or a parsed JSON document. -/
inductive ConfigSource where
  | missing
  | invalidJson
  | jsonContent (j : JsonV)

/-- `RegFoxAPI.__load_api` up to the `config['api_key']` subscript: yields
the key value, or the exception Python raises (`FileNotFoundError` from
`open`, `json.JSONDecodeError` from `json.load`, `KeyError` for a dict
without the field, `TypeError` for subscripting a non-dict document). -/
def loadApi (src : ConfigSource) : Except PyExc JsonV :=
  match src with
  | .missing => .error .fileNotFoundError
  | .invalidJson => .error .jsonDecodeError
  | .jsonContent (.obj fields) =>
    match fields.lookup "api_key" with
    | some v => .ok v
    | none => .error .keyError
  | .jsonContent _ => .error .typeError

/-- `RegFoxAPI.__init__`: run `__load_api`, storing the key into
`headers['apiKey']`; the debug fields start as `None` / `{}`. -/
def initClient (src : ConfigSource) : Except PyExc RFState :=
  match loadApi src with
  | .error e => .error e
  | .ok key => .ok { apiKey := key, last_request := Option.none, last_request_json := .obj [] }

namespace ObjModel

/-!
Python attribute semantics for the class-level fields of `RegFoxAPI`:
`headers`, `last_request` and `last_request_json` are declared in the class
body, so they are attributes of the class object.  An attribute read on an
instance falls back to the class when the instance has no attribute of
that name; `self.x = v` creates/overwrites an attribute on the instance
only; `self.headers['apiKey'] = v` first reads the attribute `headers`
(falling back to the class) and then mutates the referenced dict object in
place.  Two instances `a` and `b` are modelled, with a heap of mutable
dict objects.
-/

/-- A value stored in an attribute slot: a reference to a mutable dict on
the heap, an (immutable, freshly parsed) JSON value, a raw response
object, or `None`. -/
inductive AttrVal where
  | dictRef (addr : Nat)
  | jsonVal (j : JsonV)
  | respVal (r : Response)
  | noneVal
deriving Repr

/-- The two client instances. -/
inductive Inst where
  | a
  | b
deriving DecidableEq, Repr

/-- The mutable world: heap of dict objects, attributes of the class
object `RegFoxAPI`, and the per-instance attribute tables. -/
structure World where
  heap : Nat → String → Option JsonV
  classAttrs : String → Option AttrVal
  instA : String → Option AttrVal
  instB : String → Option AttrVal

/-- The attribute table of one instance. -/
def instAttrs (w : World) : Inst → String → Option AttrVal
  | .a => w.instA
  | .b => w.instB

/-- Attribute read `i.n`: instance attribute first, class attribute as
fallback. -/
def getattrW (w : World) (i : Inst) (n : String) : Option AttrVal :=
  match instAttrs w i n with
  | some v => some v
  | none => w.classAttrs n

/-- Attribute write `i.n = v`: always on the instance. -/
def setattrW (w : World) (i : Inst) (n : String) (v : AttrVal) : World :=
  match i with
  | .a => { w with instA := fun n' => if n' = n then some v else w.instA n' }
  | .b => { w with instB := fun n' => if n' = n then some v else w.instB n' }

/-- In-place dict update `d[k] = v` on the heap object at `addr`. -/
def dictSetItem (w : World) (addr : Nat) (k : String) (v : JsonV) : World :=
  { w with
    heap := fun a' k' =>
      if a' = addr then (if k' = k then some v else w.heap a' k')
      else w.heap a' k' }

/-- `i.attr[k] = v`: resolve the attribute (instance, then class) to a dict
reference and mutate that dict in place. -/
def setItemViaAttr (w : World) (i : Inst) (attr k : String) (v : JsonV) : World :=
  match getattrW w i attr with
  | some (.dictRef addr) => dictSetItem w addr k v
  | _ => w

/-- `RegFoxAPI.__load_api` on instance `i` with the key read from the
config: `self.headers['apiKey'] = config['api_key']`. -/
def loadApiW (w : World) (i : Inst) (key : JsonV) : World :=
  setItemViaAttr w i "headers" "apiKey" key

/-- The state-mutating tail of `RegFoxAPI.__api_request` on instance `i`,
for a transport answer `text`: `self.last_request = r` then
`self.last_request_json = json.loads(r.text)` (nothing is assigned when
the parse raises). -/
def apiRequestW (w : World) (i : Inst) (jl : JsonLoads) (text : String) : World :=
  let w1 := setattrW w i "last_request" (.respVal ⟨text⟩)
  match jl text with
  | some j => setattrW w1 i "last_request_json" (.jsonVal j)
  | none => w1

/-- The `apiKey` entry of the dict that `requests.request(...,
headers=self.headers, ...)` resolves for instance `i`. -/
def headerKeySent (w : World) (i : Inst) : Option JsonV :=
  match getattrW w i "headers" with
  | some (.dictRef addr) => w.heap addr "apiKey"
  | _ => none

/-- The heap at class-definition time: the single `headers` dict lives at
address `0` with `{'apiKey': ''}`. -/
def initHeap : Nat → String → Option JsonV := fun addr k =>
  if addr = 0 then (if k = "apiKey" then some (.str "") else none)
  else none

/-- Attributes of the class object `RegFoxAPI` as the class body declares
them: `headers` a dict, `last_request = None`, `last_request_json = {}`. -/
def classAttrs0 : String → Option AttrVal := fun n =>
  if n = "headers" then some (.dictRef 0)
  else if n = "last_request" then some .noneVal
  else if n = "last_request_json" then some (.jsonVal (.obj []))
  else none

/-- The world right after the class definition, with two fresh instances
`a` and `b` that have not yet run `__load_api`. -/
def world0 : World :=
  { heap := initHeap, classAttrs := classAttrs0,
    instA := fun _ => Option.none, instB := fun _ => Option.none }

end ObjModel

/-- The URLs of the requests an operation handed to the transport. -/
def issuedUrls (r : Except PyExc JsonV × RFState × List HttpRequest) : List String :=
  r.2.2.map HttpRequest.url

theorem apiRequest_issued (t : Transport) (jl : JsonLoads) (m u : String)
    (p : Option JsonV) (ps : List (String × JsonV)) (s : RFState) :
    (apiRequest t jl m u p ps s).2.2 =
      [{ method := m, url := u, headers := mkHeaders s, jsonBody := p, params := ps }] := by
  simp only [apiRequest]
  cases t { method := m, url := u, headers := mkHeaders s, jsonBody := p, params := ps } with
  | failure => rfl
  | success text =>
    dsimp only
    cases jl text <;> rfl

theorem apiRequest_apiKey (t : Transport) (jl : JsonLoads) (m u : String)
    (p : Option JsonV) (ps : List (String × JsonV)) (s : RFState) :
    ((apiRequest t jl m u p ps s).2.1).apiKey = s.apiKey := by
  simp only [apiRequest]
  cases t { method := m, url := u, headers := mkHeaders s, jsonBody := p, params := ps } with
  | failure => rfl
  | success text =>
    dsimp only
    cases jl text <;> rfl

theorem apiRequest_eq_failure (t : Transport) (jl : JsonLoads) (m u : String)
    (p : Option JsonV) (ps : List (String × JsonV)) (s : RFState)
    (h : t { method := m, url := u, headers := mkHeaders s, jsonBody := p, params := ps } = .failure) :
    apiRequest t jl m u p ps s =
      (.error .requestException, s,
       [{ method := m, url := u, headers := mkHeaders s, jsonBody := p, params := ps }]) := by
  simp only [apiRequest]
  rw [h]

theorem apiRequest_eq_parseError (t : Transport) (jl : JsonLoads) (m u : String)
    (p : Option JsonV) (ps : List (String × JsonV)) (s : RFState) (T : String)
    (h1 : t { method := m, url := u, headers := mkHeaders s, jsonBody := p, params := ps } = .success T)
    (h2 : jl T = Option.none) :
    apiRequest t jl m u p ps s =
      (.error .jsonDecodeError, { s with last_request := some ⟨T⟩ },
       [{ method := m, url := u, headers := mkHeaders s, jsonBody := p, params := ps }]) := by
  simp only [apiRequest]
  rw [h1]
  simp only [h2]

theorem apiRequest_eq_ok (t : Transport) (jl : JsonLoads) (m u : String)
    (p : Option JsonV) (ps : List (String × JsonV)) (s : RFState) (T : String) (J : JsonV)
    (h1 : t { method := m, url := u, headers := mkHeaders s, jsonBody := p, params := ps } = .success T)
    (h2 : jl T = some J) :
    apiRequest t jl m u p ps s =
      (.ok ⟨T⟩, { apiKey := s.apiKey, last_request := some ⟨T⟩, last_request_json := J },
       [{ method := m, url := u, headers := mkHeaders s, jsonBody := p, params := ps }]) := by
  simp only [apiRequest]
  rw [h1]
  simp only [h2]

theorem api_get_issued (t : Transport) (jl : JsonLoads) (e : String)
    (ps : List (String × JsonV)) (s : RFState) :
    (api_get t jl e ps s).2.2 =
      [{ method := "GET", url := url_base ++ e, headers := mkHeaders s,
         jsonBody := Option.none, params := ps }] := by
  unfold api_get
  have h := apiRequest_issued t jl "GET" (url_base ++ e) Option.none ps s
  rcases hr : apiRequest t jl "GET" (url_base ++ e) Option.none ps s with ⟨res, s1, reqs⟩
  rw [hr] at h
  cases res <;> simpa using h

theorem api_post_issued (t : Transport) (jl : JsonLoads) (e : String) (payload : JsonV)
    (ps : List (String × JsonV)) (s : RFState) :
    (api_post t jl e payload ps s).2.2 =
      [{ method := "POST", url := url_base ++ e, headers := mkHeaders s,
         jsonBody := some payload, params := ps }] := by
  unfold api_post
  have h := apiRequest_issued t jl "POST" (url_base ++ e) (some payload) ps s
  rcases hr : apiRequest t jl "POST" (url_base ++ e) (some payload) ps s with ⟨res, s1, reqs⟩
  rw [hr] at h
  cases res <;> simpa using h

theorem api_get_apiKey (t : Transport) (jl : JsonLoads) (e : String)
    (ps : List (String × JsonV)) (s : RFState) :
    ((api_get t jl e ps s).2.1).apiKey = s.apiKey := by
  unfold api_get
  have h := apiRequest_apiKey t jl "GET" (url_base ++ e) Option.none ps s
  rcases hr : apiRequest t jl "GET" (url_base ++ e) Option.none ps s with ⟨res, s1, reqs⟩
  rw [hr] at h
  cases res <;> simpa using h

theorem api_post_apiKey (t : Transport) (jl : JsonLoads) (e : String) (payload : JsonV)
    (ps : List (String × JsonV)) (s : RFState) :
    ((api_post t jl e payload ps s).2.1).apiKey = s.apiKey := by
  unfold api_post
  have h := apiRequest_apiKey t jl "POST" (url_base ++ e) (some payload) ps s
  rcases hr : apiRequest t jl "POST" (url_base ++ e) (some payload) ps s with ⟨res, s1, reqs⟩
  rw [hr] at h
  cases res <;> simpa using h

theorem api_get_eq_ok (t : Transport) (jl : JsonLoads) (e : String)
    (ps : List (String × JsonV)) (s : RFState) (T : String) (J : JsonV)
    (h1 : t { method := "GET", url := url_base ++ e, headers := mkHeaders s,
              jsonBody := Option.none, params := ps } = .success T)
    (h2 : jl T = some J) :
    api_get t jl e ps s =
      (.ok J, { apiKey := s.apiKey, last_request := some ⟨T⟩, last_request_json := J },
       [{ method := "GET", url := url_base ++ e, headers := mkHeaders s,
          jsonBody := Option.none, params := ps }]) := by
  unfold api_get
  rw [apiRequest_eq_ok t jl "GET" (url_base ++ e) Option.none ps s T J h1 h2]

theorem api_post_eq_ok (t : Transport) (jl : JsonLoads) (e : String) (payload : JsonV)
    (ps : List (String × JsonV)) (s : RFState) (T : String) (J : JsonV)
    (h1 : t { method := "POST", url := url_base ++ e, headers := mkHeaders s,
              jsonBody := some payload, params := ps } = .success T)
    (h2 : jl T = some J) :
    api_post t jl e payload ps s =
      (.ok J, { apiKey := s.apiKey, last_request := some ⟨T⟩, last_request_json := J },
       [{ method := "POST", url := url_base ++ e, headers := mkHeaders s,
          jsonBody := some payload, params := ps }]) := by
  unfold api_post
  rw [apiRequest_eq_ok t jl "POST" (url_base ++ e) (some payload) ps s T J h1 h2]

/-- C1: every named convenience method resolves and issues its request
against exactly the path the documented endpoint catalog lists for it
(`ping → /ping`, `search_orders → /search/orders`,
`search_registrants → /search/registrants`,
`registrant_checkin → /registrant/check-in`,
`registrant_checkout → /registrant/check-out`,
`search_transactions → /search/transactions`,
`search_customers → /search/customers`,
`list_global_coupons → /coupons/global`,
`list_form_coupons → /coupons/forms`, `search_coupons → /coupons`,
`list_forms → /forms`), with the entity-specific variants appending
`/{id}` (or `/{id}/inventory`) to the corresponding base path. -/
theorem convenience_methods_resolve_catalog_paths (t : Transport) (jl : JsonLoads)
    (s : RFState) (kwargs : List (String × JsonV)) (n : Int) (rid : PyVal)
    (order_id reg_number : String) (customer_id form_id coupon_id : Int) :
    issuedUrls (ping t jl s) = [url_base ++ "/ping"] ∧
    issuedUrls (search_orders t jl kwargs s) = [url_base ++ "/search/orders"] ∧
    issuedUrls (search_registrants t jl kwargs s) = [url_base ++ "/search/registrants"] ∧
    issuedUrls (registrant_checkin t jl (.int n) rid s) = [url_base ++ "/registrant/check-in"] ∧
    issuedUrls (registrant_checkout t jl (.int n) rid s).2 = [url_base ++ "/registrant/check-out"] ∧
    issuedUrls (search_transactions t jl kwargs s) = [url_base ++ "/search/transactions"] ∧
    issuedUrls (search_customers t jl kwargs s) = [url_base ++ "/search/customers"] ∧
    issuedUrls (list_global_coupons t jl kwargs s) = [url_base ++ "/coupons/global"] ∧
    issuedUrls (list_form_coupons t jl form_id s) =
      [url_base ++ ("/coupons/forms" ++ "/" ++ toString form_id)] ∧
    issuedUrls (search_coupons t jl coupon_id s) =
      [url_base ++ ("/coupons" ++ "/" ++ toString coupon_id)] ∧
    issuedUrls (list_forms t jl s) = [url_base ++ "/forms"] ∧
    issuedUrls (search_orders_id t jl order_id s) =
      [url_base ++ ("/search/orders" ++ "/" ++ order_id)] ∧
    issuedUrls (search_registrants_number t jl reg_number s) =
      [url_base ++ ("/search/registrants" ++ "/" ++ reg_number)] ∧
    issuedUrls (search_customers_id t jl customer_id s) =
      [url_base ++ ("/search/customers" ++ "/" ++ toString customer_id)] ∧
    issuedUrls (search_forms_id t jl form_id s) =
      [url_base ++ ("/forms" ++ "/" ++ toString form_id)] ∧
    issuedUrls (search_inventory t jl form_id s) =
      [url_base ++ ("/forms" ++ "/" ++ toString form_id ++ "/inventory")] := by
  refine ⟨?_, ?_, ?_, ?_, ?_, ?_, ?_, ?_, ?_, ?_, ?_, ?_, ?_, ?_, ?_, ?_⟩ <;>
    simp [issuedUrls, ping, search_orders, search_registrants, registrant_checkin,
      registrant_checkout, search_transactions, search_customers, list_global_coupons,
      list_form_coupons, search_coupons, list_forms, search_orders_id,
      search_registrants_number, search_customers_id, search_forms_id, search_inventory,
      api_get_issued, api_post_issued, ep, endpoints] <;> rfl

/-- C8: the declared-but-unused `reg_id` parameter of `registrant_checkin`
has no effect: any two values of it give the identical request, state and
result. -/
theorem registrant_checkin_ignores_reg_id (t : Transport) (jl : JsonLoads)
    (rn v1 v2 : PyVal) (s : RFState) :
    registrant_checkin t jl rn v1 s = registrant_checkin t jl rn v2 s := by
  cases rn <;> rfl

/-- C2: `search_orders(orderNumber=X)` hands the transport exactly one GET
request to `url_base ++ "/search/orders"` carrying the query parameter
`orderNumber=X` and the API-key header, and returns the upstream response
body parsed as JSON with no other transformation. -/
theorem search_orders_single_get_roundtrip (t : Transport) (jl : JsonLoads)
    (X : String) (s : RFState) :
    (search_orders t jl [("orderNumber", .str X)] s).2.2 =
      [{ method := "GET", url := url_base ++ "/search/orders",
         headers := [("apiKey", s.apiKey)], jsonBody := Option.none,
         params := [("orderNumber", JsonV.str X)] }] ∧
    ∀ T J, t { method := "GET", url := url_base ++ "/search/orders",
               headers := [("apiKey", s.apiKey)], jsonBody := Option.none,
               params := [("orderNumber", JsonV.str X)] } = .success T →
      jl T = some J →
      (search_orders t jl [("orderNumber", .str X)] s).1 = .ok J := by
  constructor
  · rw [show search_orders t jl [("orderNumber", .str X)] s =
        api_get t jl (ep "search_orders") [("orderNumber", .str X)] s from rfl,
      api_get_issued]
    rfl
  · intro T J h1 h2
    rw [show search_orders t jl [("orderNumber", .str X)] s =
        api_get t jl (ep "search_orders") [("orderNumber", .str X)] s from rfl,
      api_get_eq_ok t jl (ep "search_orders") [("orderNumber", .str X)] s T J h1 h2]

theorem search_orders_single_get_roundtrip_witness :
    ((fun _ => TransportOutcome.success "x" : Transport)
        { method := "GET", url := url_base ++ "/search/orders",
          headers := [("apiKey", JsonV.str "K")], jsonBody := Option.none,
          params := [("orderNumber", JsonV.str "ORDER1")] } = .success "x") ∧
    ((fun _ => some (JsonV.num 7) : JsonLoads) "x" = some (JsonV.num 7)) ∧
    (search_orders (fun _ => TransportOutcome.success "x")
        (fun _ => some (JsonV.num 7)) [("orderNumber", .str "ORDER1")]
        { apiKey := .str "K", last_request := Option.none, last_request_json := .obj [] }).1
      = .ok (JsonV.num 7) :=
  ⟨rfl, rfl,
   (search_orders_single_get_roundtrip (fun _ => TransportOutcome.success "x")
      (fun _ => some (JsonV.num 7)) "ORDER1"
      { apiKey := .str "K", last_request := Option.none, last_request_json := .obj [] }).2
     "x" (JsonV.num 7) rfl rfl⟩

/-- C3: `registrant_checkin(reg_number=n)` with an `int` posts the JSON
body `{'id': n}` to `/registrant/check-in`; any non-`int` value (including
the default `None`) fails the `assert` and raises `AssertionError` before
any request is handed to the transport (the state is untouched and the
issued-request list is empty). -/
theorem registrant_checkin_posts_id_or_asserts (t : Transport) (jl : JsonLoads)
    (n : Int) (rid : PyVal) (s : RFState) :
    (registrant_checkin t jl (.int n) rid s).2.2 =
      [{ method := "POST", url := url_base ++ "/registrant/check-in",
         headers := [("apiKey", s.apiKey)],
         jsonBody := some (.obj [("id", .num n)]), params := [] }] ∧
    ∀ v : PyVal, v.isTypeInt = false →
      registrant_checkin t jl v rid s = (.error .assertionError, s, []) := by
  constructor
  · rw [show registrant_checkin t jl (.int n) rid s =
        api_post t jl (ep "registrant_checkin") (.obj [("id", .num n)]) [] s from rfl,
      api_post_issued]
    rfl
  · intro v hv
    cases v with
    | int m => simp [PyVal.isTypeInt] at hv
    | none => rfl
    | str a => rfl
    | bool b => rfl

theorem registrant_checkin_posts_id_or_asserts_witness :
    (PyVal.none.isTypeInt = false) ∧
    (registrant_checkin (fun _ => TransportOutcome.success "x")
        (fun _ => some (JsonV.num 7)) PyVal.none PyVal.none
        { apiKey := .str "K", last_request := Option.none, last_request_json := .obj [] }
      = (.error .assertionError,
         { apiKey := .str "K", last_request := Option.none, last_request_json := .obj [] }, [])) :=
  ⟨rfl,
   (registrant_checkin_posts_id_or_asserts (fun _ => TransportOutcome.success "x")
      (fun _ => some (JsonV.num 7)) 0 PyVal.none
      { apiKey := .str "K", last_request := Option.none, last_request_json := .obj [] }).2
     PyVal.none rfl⟩

/-- C4: when the upstream answers the check-out POST with a (conflict)
error body, `registrant_checkout` returns that upstream object unmodified
— it does not swallow, rewrite or convert it — and prints its warning line
to stderr before returning. -/
theorem registrant_checkout_surfaces_conflict_and_warns (t : Transport)
    (jl : JsonLoads) (n : Int) (rid : PyVal) (s : RFState) (T : String) (J : JsonV)
    (h1 : t { method := "POST", url := url_base ++ "/registrant/check-out",
              headers := [("apiKey", s.apiKey)],
              jsonBody := some (.obj [("id", .num n)]), params := [] } = .success T)
    (h2 : jl T = some J) :
    (registrant_checkout t jl (.int n) rid s).1 =
      ["WARNING: checkout() is broken as of last test run"] ∧
    (registrant_checkout t jl (.int n) rid s).2.1 = .ok J := by
  constructor
  · rfl
  · show (api_post t jl (ep "registrant_checkout") (.obj [("id", .num n)]) [] s).1 = .ok J
    rw [api_post_eq_ok t jl (ep "registrant_checkout") (.obj [("id", .num n)]) [] s T J h1 h2]

theorem registrant_checkout_surfaces_conflict_and_warns_witness :
    (registrant_checkout
        (fun _ => TransportOutcome.success "conflict")
        (fun _ => some (JsonV.obj [("responseCode", .num 500),
          ("error", .obj [("code", .num 8500), ("description", .str "all ready checked in")])]))
        (PyVal.int 1230469) PyVal.none
        { apiKey := .str "K", last_request := Option.none, last_request_json := .obj [] }).1
      = ["WARNING: checkout() is broken as of last test run"] ∧
    (registrant_checkout
        (fun _ => TransportOutcome.success "conflict")
        (fun _ => some (JsonV.obj [("responseCode", .num 500),
          ("error", .obj [("code", .num 8500), ("description", .str "all ready checked in")])]))
        (PyVal.int 1230469) PyVal.none
        { apiKey := .str "K", last_request := Option.none, last_request_json := .obj [] }).2.1
      = .ok (JsonV.obj [("responseCode", .num 500),
          ("error", .obj [("code", .num 8500), ("description", .str "all ready checked in")])]) :=
  registrant_checkout_surfaces_conflict_and_warns
    (fun _ => TransportOutcome.success "conflict")
    (fun _ => some (JsonV.obj [("responseCode", .num 500),
      ("error", .obj [("code", .num 8500), ("description", .str "all ready checked in")])]))
    1230469 PyVal.none
    { apiKey := .str "K", last_request := Option.none, last_request_json := .obj [] }
    "conflict"
    (JsonV.obj [("responseCode", .num 500),
      ("error", .obj [("code", .num 8500), ("description", .str "all ready checked in")])])
    rfl rfl

/-- C5 counterexample: initialization does not fail with a single
`ConfigError` kind — the code defines no such error at all, and the three
failure cases raise three different builtin exceptions; concretely, a
missing source raises `FileNotFoundError` while a malformed one raises
`json.JSONDecodeError`, two distinct kinds. -/
theorem initClient_no_single_config_error_kind :
    initClient .missing = .error .fileNotFoundError ∧
    initClient .invalidJson = .error .jsonDecodeError ∧
    PyExc.fileNotFoundError ≠ PyExc.jsonDecodeError :=
  ⟨rfl, rfl, by decide⟩

/-- C5 (amended): when the configuration source is missing, malformed, or
lacks the `api_key` field, client initialization fails — raising the
builtin `FileNotFoundError`, `json.JSONDecodeError`, or `KeyError`
respectively (no `ConfigError` class exists in the code). -/
theorem initClient_failure_modes (fields : List (String × JsonV))
    (h : fields.lookup "api_key" = Option.none) :
    initClient (.jsonContent (.obj fields)) = .error .keyError ∧
    initClient .missing = .error .fileNotFoundError ∧
    initClient .invalidJson = .error .jsonDecodeError := by
  refine ⟨?_, rfl, rfl⟩
  simp only [initClient, loadApi, h]

theorem initClient_failure_modes_witness :
    (([("other", JsonV.str "v")] : List (String × JsonV)).lookup "api_key" = Option.none) ∧
    initClient (.jsonContent (.obj [("other", JsonV.str "v")])) = .error .keyError :=
  ⟨rfl, (initClient_failure_modes [("other", JsonV.str "v")] rfl).1⟩

/-- C6: for a valid configuration source whose document carries the
`api_key` field, initialization succeeds, the stored key equals the
source's field exactly, and every request subsequently issued through
`api_get` / `api_post` carries exactly that key as its `apiKey` header
(the key is also preserved by each call). -/
theorem initClient_stores_and_sends_exact_key (fields : List (String × JsonV))
    (v : JsonV) (h : fields.lookup "api_key" = some v) :
    initClient (.jsonContent (.obj fields)) =
      .ok { apiKey := v, last_request := Option.none, last_request_json := .obj [] } ∧
    (∀ (t : Transport) (jl : JsonLoads) (e : String) (params : List (String × JsonV))
        (s : RFState), s.apiKey = v →
      (∀ r ∈ (api_get t jl e params s).2.2, r.headers = [("apiKey", v)]) ∧
      ((api_get t jl e params s).2.1).apiKey = v) ∧
    (∀ (t : Transport) (jl : JsonLoads) (e : String) (payload : JsonV)
        (params : List (String × JsonV)) (s : RFState), s.apiKey = v →
      (∀ r ∈ (api_post t jl e payload params s).2.2, r.headers = [("apiKey", v)]) ∧
      ((api_post t jl e payload params s).2.1).apiKey = v) := by
  refine ⟨?_, ?_, ?_⟩
  · simp only [initClient, loadApi, h]
  · intro t jl e params s hs
    refine ⟨?_, ?_⟩
    · intro r hr
      rw [api_get_issued] at hr
      simp only [List.mem_singleton] at hr
      subst hr
      simp [mkHeaders, hs]
    · rw [api_get_apiKey, hs]
  · intro t jl e payload params s hs
    refine ⟨?_, ?_⟩
    · intro r hr
      rw [api_post_issued] at hr
      simp only [List.mem_singleton] at hr
      subst hr
      simp [mkHeaders, hs]
    · rw [api_post_apiKey, hs]

theorem initClient_stores_and_sends_exact_key_witness :
    (([("api_key", JsonV.str "SECRET")] : List (String × JsonV)).lookup "api_key"
      = some (JsonV.str "SECRET")) ∧
    initClient (.jsonContent (.obj [("api_key", JsonV.str "SECRET")])) =
      .ok { apiKey := JsonV.str "SECRET", last_request := Option.none,
            last_request_json := .obj [] } :=
  ⟨rfl, (initClient_stores_and_sends_exact_key [("api_key", JsonV.str "SECRET")]
          (JsonV.str "SECRET") rfl).1⟩

/-- C7: for the generic request operations (`api_get` / `api_post`), a
transport-level failure surfaces as the transport's exception
(`requests.exceptions.RequestException`, the spec's `RequestError`); a
delivered body that is not valid JSON surfaces as `json.JSONDecodeError`
(the spec's `ResponseParseError`); otherwise the parsed JSON body is
returned. -/
theorem generic_request_error_classification (t : Transport) (jl : JsonLoads)
    (e : String) (payload : JsonV) (params : List (String × JsonV)) (s : RFState) :
    ((t { method := "GET", url := url_base ++ e, headers := mkHeaders s,
          jsonBody := Option.none, params := params } = .failure →
        (api_get t jl e params s).1 = .error .requestException) ∧
     (∀ T, t { method := "GET", url := url_base ++ e, headers := mkHeaders s,
               jsonBody := Option.none, params := params } = .success T →
        jl T = Option.none → (api_get t jl e params s).1 = .error .jsonDecodeError) ∧
     (∀ T J, t { method := "GET", url := url_base ++ e, headers := mkHeaders s,
                 jsonBody := Option.none, params := params } = .success T →
        jl T = some J → (api_get t jl e params s).1 = .ok J)) ∧
    ((t { method := "POST", url := url_base ++ e, headers := mkHeaders s,
          jsonBody := some payload, params := params } = .failure →
        (api_post t jl e payload params s).1 = .error .requestException) ∧
     (∀ T, t { method := "POST", url := url_base ++ e, headers := mkHeaders s,
               jsonBody := some payload, params := params } = .success T →
        jl T = Option.none → (api_post t jl e payload params s).1 = .error .jsonDecodeError) ∧
     (∀ T J, t { method := "POST", url := url_base ++ e, headers := mkHeaders s,
                 jsonBody := some payload, params := params } = .success T →
        jl T = some J → (api_post t jl e payload params s).1 = .ok J)) := by
  refine ⟨⟨?_, ?_, ?_⟩, ?_, ?_, ?_⟩
  · intro h
    unfold api_get
    rw [apiRequest_eq_failure t jl "GET" (url_base ++ e) Option.none params s h]
  · intro T h1 h2
    unfold api_get
    rw [apiRequest_eq_parseError t jl "GET" (url_base ++ e) Option.none params s T h1 h2]
  · intro T J h1 h2
    unfold api_get
    rw [apiRequest_eq_ok t jl "GET" (url_base ++ e) Option.none params s T J h1 h2]
  · intro h
    unfold api_post
    rw [apiRequest_eq_failure t jl "POST" (url_base ++ e) (some payload) params s h]
  · intro T h1 h2
    unfold api_post
    rw [apiRequest_eq_parseError t jl "POST" (url_base ++ e) (some payload) params s T h1 h2]
  · intro T J h1 h2
    unfold api_post
    rw [apiRequest_eq_ok t jl "POST" (url_base ++ e) (some payload) params s T J h1 h2]

theorem generic_request_error_classification_witness :
    (api_get (fun _ => TransportOutcome.failure) (fun _ => some (JsonV.num 1)) "/ping" []
        { apiKey := .str "K", last_request := Option.none, last_request_json := .obj [] }).1
      = .error .requestException ∧
    (api_get (fun _ => TransportOutcome.success "not json") (fun _ => Option.none) "/ping" []
        { apiKey := .str "K", last_request := Option.none, last_request_json := .obj [] }).1
      = .error .jsonDecodeError ∧
    (api_get (fun _ => TransportOutcome.success "x") (fun _ => some (JsonV.num 1)) "/ping" []
        { apiKey := .str "K", last_request := Option.none, last_request_json := .obj [] }).1
      = .ok (JsonV.num 1) :=
  ⟨((generic_request_error_classification (fun _ => TransportOutcome.failure)
      (fun _ => some (JsonV.num 1)) "/ping" (JsonV.obj []) []
      { apiKey := .str "K", last_request := Option.none, last_request_json := .obj [] }).1).1 rfl,
   ((generic_request_error_classification (fun _ => TransportOutcome.success "not json")
      (fun _ => Option.none) "/ping" (JsonV.obj []) []
      { apiKey := .str "K", last_request := Option.none, last_request_json := .obj [] }).1).2.1
     "not json" rfl rfl,
   ((generic_request_error_classification (fun _ => TransportOutcome.success "x")
      (fun _ => some (JsonV.num 1)) "/ping" (JsonV.obj []) []
      { apiKey := .str "K", last_request := Option.none, last_request_json := .obj [] }).1).2.2
     "x" (JsonV.num 1) rfl rfl⟩

/-- C10: whenever `api_get` or `api_post` succeeds, the value it returns is
exactly the `last_request_json` field of the state it leaves behind — the
debug state and the return value never diverge within a single-threaded
sequence of calls. -/
theorem api_result_equals_last_request_json (t : Transport) (jl : JsonLoads)
    (e : String) (payload : JsonV) (params : List (String × JsonV)) (s : RFState) :
    (∀ J s' reqs, api_get t jl e params s = (.ok J, s', reqs) →
       J = s'.last_request_json) ∧
    (∀ J s' reqs, api_post t jl e payload params s = (.ok J, s', reqs) →
       J = s'.last_request_json) := by
  constructor
  · intro J s' reqs h
    unfold api_get at h
    rcases hr : apiRequest t jl "GET" (url_base ++ e) Option.none params s with ⟨res, s1, rs⟩
    rw [hr] at h
    cases res with
    | error er => simp at h
    | ok r =>
      simp only at h
      injection h with h1 h2
      injection h2 with h2 h3
      injection h1 with h1
      rw [← h1, ← h2]
  · intro J s' reqs h
    unfold api_post at h
    rcases hr : apiRequest t jl "POST" (url_base ++ e) (some payload) params s with ⟨res, s1, rs⟩
    rw [hr] at h
    cases res with
    | error er => simp at h
    | ok r =>
      simp only at h
      injection h with h1 h2
      injection h2 with h2 h3
      injection h1 with h1
      rw [← h1, ← h2]

theorem api_result_equals_last_request_json_witness :
    api_get (fun _ => TransportOutcome.success "x") (fun _ => some (JsonV.num 5)) "/ping" []
        { apiKey := .str "K", last_request := Option.none, last_request_json := .obj [] }
      = (.ok (JsonV.num 5),
         { apiKey := .str "K", last_request := some ⟨"x"⟩, last_request_json := JsonV.num 5 },
         [{ method := "GET", url := url_base ++ "/ping", headers := [("apiKey", JsonV.str "K")],
            jsonBody := Option.none, params := [] }]) ∧
    JsonV.num 5 =
      (RFState.mk (.str "K") (some ⟨"x"⟩) (JsonV.num 5)).last_request_json :=
  ⟨rfl,
   (api_result_equals_last_request_json (fun _ => TransportOutcome.success "x")
      (fun _ => some (JsonV.num 5)) "/ping" (JsonV.obj []) []
      { apiKey := .str "K", last_request := Option.none, last_request_json := .obj [] }).1
     (JsonV.num 5)
     { apiKey := .str "K", last_request := some ⟨"x"⟩, last_request_json := JsonV.num 5 }
     [{ method := "GET", url := url_base ++ "/ping", headers := [("apiKey", JsonV.str "K")],
        jsonBody := Option.none, params := [] }]
     rfl⟩

/-- The concrete two-instance scenario for the debug-field claim: both
instances load their keys, then instance `a` makes one call whose response
body parses to the JSON number `1`. -/
def scenarioWorld : ObjModel.World :=
  ObjModel.apiRequestW
    (ObjModel.loadApiW (ObjModel.loadApiW ObjModel.world0 .a (.str "keyA")) .b (.str "keyB"))
    .a (fun _ => some (.num 1)) "1"

/-- C9 counterexample: in the concrete scenario, loading a configuration in
`b` does overwrite the key `a` sends (the `headers` dict is genuinely
shared), but the call made through `a` does NOT overwrite the
last-response state observed through `b`: `self.last_request_json = ...`
rebinds an instance attribute, so `b` still reads the class-level `{}`
while `a` reads the parsed body `1`. -/
theorem debug_fields_not_shared_counterexample :
    ObjModel.headerKeySent scenarioWorld .a = some (.str "keyB") ∧
    ObjModel.getattrW scenarioWorld .a "last_request_json" =
      some (.jsonVal (.num 1)) ∧
    ObjModel.getattrW scenarioWorld .b "last_request_json" =
      some (.jsonVal (.obj [])) ∧
    ObjModel.AttrVal.jsonVal (.obj []) ≠ ObjModel.AttrVal.jsonVal (.num 1) := by
  refine ⟨rfl, rfl, rfl, ?_⟩
  intro h
  injection h with h
  cases h

/-- C9 (amended): the `headers` dict alone is class-level state mutated in
place — after `a` and then `b` load their configurations, both instances
resolve the same dict and both send `b`'s key, so independently configured
clients cannot coexist; but `last_request_json`, though declared at class
level, is rebound as an instance attribute by `__api_request`, so a call
made through `a` leaves the state observed through `b` unchanged while
recording the parsed body on `a`. -/
theorem headers_shared_but_debug_fields_per_instance (kA kB : JsonV)
    (jl : JsonLoads) (T : String) (J : JsonV) (h : jl T = some J) :
    ObjModel.headerKeySent
      (ObjModel.loadApiW (ObjModel.loadApiW ObjModel.world0 .a kA) .b kB) .a = some kB ∧
    ObjModel.headerKeySent
      (ObjModel.loadApiW (ObjModel.loadApiW ObjModel.world0 .a kA) .b kB) .b = some kB ∧
    ObjModel.getattrW
      (ObjModel.apiRequestW
        (ObjModel.loadApiW (ObjModel.loadApiW ObjModel.world0 .a kA) .b kB) .a jl T)
      .b "last_request_json" =
      ObjModel.getattrW
        (ObjModel.loadApiW (ObjModel.loadApiW ObjModel.world0 .a kA) .b kB)
        .b "last_request_json" ∧
    ObjModel.getattrW
      (ObjModel.apiRequestW
        (ObjModel.loadApiW (ObjModel.loadApiW ObjModel.world0 .a kA) .b kB) .a jl T)
      .a "last_request_json" = some (.jsonVal J) := by
  refine ⟨rfl, rfl, ?_, ?_⟩
  · simp only [ObjModel.apiRequestW, h]
    rfl
  · simp only [ObjModel.apiRequestW, h]
    rfl

theorem headers_shared_but_debug_fields_per_instance_witness :
    ((fun _ => some (JsonV.num 1) : JsonLoads) "1" = some (JsonV.num 1)) ∧
    ObjModel.headerKeySent
      (ObjModel.loadApiW (ObjModel.loadApiW ObjModel.world0 .a (.str "keyA")) .b (.str "keyB"))
      .a = some (.str "keyB") ∧
    ObjModel.getattrW
      (ObjModel.apiRequestW
        (ObjModel.loadApiW (ObjModel.loadApiW ObjModel.world0 .a (.str "keyA")) .b (.str "keyB"))
        .a (fun _ => some (JsonV.num 1)) "1")
      .b "last_request_json" =
      ObjModel.getattrW
        (ObjModel.loadApiW (ObjModel.loadApiW ObjModel.world0 .a (.str "keyA")) .b (.str "keyB"))
        .b "last_request_json" :=
  ⟨rfl,
   (headers_shared_but_debug_fields_per_instance (.str "keyA") (.str "keyB")
      (fun _ => some (JsonV.num 1)) "1" (JsonV.num 1) rfl).1,
   (headers_shared_but_debug_fields_per_instance (.str "keyA") (.str "keyB")
      (fun _ => some (JsonV.num 1)) "1" (JsonV.num 1) rfl).2.2.1⟩

end RegFox
